import Mathlib

/-!
Shallow embedding of the windowed averaging engine, circuit breaker and
ingest dispatcher of the iot-agriculture-backend repository, with theorems
settling the frozen specification claims.

Sources embedded:
- internal/models/sensor.go         (ESP32SensorData, SensorAverages, AverageResult)
- internal/services/averaging_service.go  (multi-key AveragingService)
- the InfluxDB service with circuit breaker (canExecute / recordFailure /
  recordSuccess / LogAverages)
- main.go (bounded MQTT dispatch channel and its overflow handler)
- internal/services/metrics_service.go (scalar Prometheus counters/gauges)

Machine integers are modelled as Int/Nat (Go int never overflows in these
paths at realistic sizes and the spec's arithmetic is exact); Go float64
averages are modelled as exact rationals (the mean formula sum/count);
time.Time is modelled as a Nat count of seconds with explicit `now`
parameters replacing time.Now().
-/

/-! ## Data model (internal/models/sensor.go) -/

/-- ESP32SensorData matches the JSON published by the ESP32; all eleven
sensor fields are optional (`*int` in Go, `Option Int` here). The
`timestamp` field is omitted: it is never read by the embedded code. -/
structure ESP32SensorData where
  greenhouseID : String
  nodeID : String
  bagTemp : Option Int
  lightPar : Option Int
  airTemp : Option Int
  airRh : Option Int
  leafTemp : Option Int
  dripWeight : Option Int
  bagRh1 : Option Int
  bagRh2 : Option Int
  bagRh3 : Option Int
  bagRh4 : Option Int
  rain : Option Int
deriving DecidableEq

/-- SensorAverages holds the accumulated values for averaging: one ordered
value sequence per optional field, plus the start timestamp (seconds). -/
structure SensorAverages where
  greenhouseID : String
  nodeID : String
  bagTemp : List Int
  lightPar : List Int
  airTemp : List Int
  airRh : List Int
  leafTemp : List Int
  dripWeight : List Int
  bagRh1 : List Int
  bagRh2 : List Int
  bagRh3 : List Int
  bagRh4 : List Int
  rain : List Int
  startTime : Nat
deriving DecidableEq

/-- AverageResult represents the calculated averages; every sensor field is
optional (`*float64` in Go, `Option ℚ` here). `duration` is the elapsed
window length in seconds. -/
structure AverageResult where
  greenhouseID : String
  nodeID : String
  duration : Nat
  readings : Nat
  bagTemp : Option ℚ
  lightPar : Option ℚ
  airTemp : Option ℚ
  airRh : Option ℚ
  leafTemp : Option ℚ
  dripWeight : Option ℚ
  bagRh1 : Option ℚ
  bagRh2 : Option ℚ
  bagRh3 : Option ℚ
  bagRh4 : Option ℚ
  rain : Option ℚ
deriving DecidableEq

/-! ## Circuit breaker (InfluxDBService) -/

/-- CircuitBreaker state constant: Closed (Go `StateClosed = iota`). -/
def StateClosed : Nat := 0

/-- CircuitBreaker state constant: Open. -/
def StateOpen : Nat := 1

/-- CircuitBreaker state constant: HalfOpen. -/
def StateHalfOpen : Nat := 2

/-- The circuit-breaker portion of InfluxDBService. `connected` models
`client != nil && writeAPI != nil`; the write API handles themselves and the
shutdown flag are irrelevant to the embedded behaviour and omitted. -/
structure InfluxDBService where
  connected : Bool
  state : Nat
  failureCount : Nat
  lastFailureTime : Nat
  threshold : Nat
  timeout : Nat
deriving DecidableEq

/-- NewInfluxDBService in the connected case: state StateClosed, threshold 5
("Fail after 5 consecutive failures"), timeout 30 seconds, zero-valued
failure count and last-failure time. -/
def newInfluxDBService : InfluxDBService :=
  { connected := true
    state := StateClosed
    failureCount := 0
    lastFailureTime := 0
    threshold := 5
    timeout := 30 }

/-- canExecute checks whether the breaker allows execution; in the Open
state, once `time.Since(lastFailureTime) > timeout` it moves the breaker to
HalfOpen and allows the call. Returns the answer with the updated state. -/
def InfluxDBService.canExecute (i : InfluxDBService) (now : Nat) :
    Bool × InfluxDBService :=
  if i.state = StateClosed then (true, i)
  else if i.state = StateOpen then
    if now - i.lastFailureTime > i.timeout then
      (true, { i with state := StateHalfOpen })
    else (false, i)
  else if i.state = StateHalfOpen then (true, i)
  else (false, i)

/-- recordFailure increments failureCount, refreshes lastFailureTime, and
opens the breaker when Closed-and-at-threshold or when HalfOpen. -/
def InfluxDBService.recordFailure (i : InfluxDBService) (now : Nat) :
    InfluxDBService :=
  let j := { i with failureCount := i.failureCount + 1, lastFailureTime := now }
  if j.state = StateClosed ∧ j.failureCount ≥ j.threshold then
    { j with state := StateOpen }
  else if j.state = StateHalfOpen then
    { j with state := StateOpen }
  else j

/-- recordSuccess closes the breaker and resets failureCount, but only from
the HalfOpen state; a success while Closed changes nothing. -/
def InfluxDBService.recordSuccess (i : InfluxDBService) : InfluxDBService :=
  if i.state = StateHalfOpen then
    { i with state := StateClosed, failureCount := 0 }
  else i

/-- Outcome of one LogAverages call. -/
inductive LogOutcome where
  | notConnected
  | breakerOpen
  | writeFailed
  | logged
deriving DecidableEq

/-- LogAverages: connectivity check, then the breaker gate, then the sink
write. `sinkOK` abstracts whether writeAPI.WritePoint succeeds. The middle
component counts actual sink invocations (0 or 1). -/
def InfluxDBService.logAverages (i : InfluxDBService) (now : Nat)
    (sinkOK : Bool) : LogOutcome × Nat × InfluxDBService :=
  if i.connected = false then (LogOutcome.notConnected, 0, i)
  else
    let gate := i.canExecute now
    if gate.1 = false then (LogOutcome.breakerOpen, 0, gate.2)
    else if sinkOK then (LogOutcome.logged, 1, gate.2.recordSuccess)
    else (LogOutcome.writeFailed, 1, gate.2.recordFailure now)

/-- Fold a sequence of sink outcomes (true = write succeeds) through
LogAverages at a fixed time, tracking only the breaker state. -/
def applyOutcomes (now : Nat) (outs : List Bool) (i : InfluxDBService) :
    InfluxDBService :=
  outs.foldl (fun s ok => (s.logAverages now ok).2.2) i

/-! ## Averaging service (internal/services/averaging_service.go, multi-key
version) -/

/-- calculateAverage computes the average of a slice of integers: 0.0 on an
empty slice, otherwise float64(sum)/float64(len), modelled exactly in ℚ. -/
def calculateAverage (values : List Int) : ℚ :=
  if values.length = 0 then 0
  else (values.sum : ℚ) / (values.length : ℚ)

/-- The result record before the per-field blocks of
calculateAveragesForBuffer run: identifiers and duration filled in,
`Readings: 0`, every field pointer nil. -/
def initialResult (now : Nat) (buf : SensorAverages) : AverageResult :=
  { greenhouseID := buf.greenhouseID
    nodeID := buf.nodeID
    duration := now - buf.startTime
    readings := 0
    bagTemp := none, lightPar := none, airTemp := none, airRh := none
    leafTemp := none, dripWeight := none, bagRh1 := none, bagRh2 := none
    bagRh3 := none, bagRh4 := none, rain := none }

/-- First if-block of calculateAveragesForBuffer: when Bag_Temp has values,
set its average and set `Readings` to its length (unconditionally — it runs
while `Readings` is still 0). -/
def stepBagTemp (buf : SensorAverages) (r : AverageResult) : AverageResult :=
  if buf.bagTemp.length > 0 then
    { r with bagTemp := some (calculateAverage buf.bagTemp),
             readings := buf.bagTemp.length }
  else r


/-- The LightPar if-block of calculateAveragesForBuffer: when the field has
values, set its average, and set `Readings` to its length only if
`Readings` is still 0. -/
def stepLightPar (buf : SensorAverages) (r : AverageResult) : AverageResult :=
  if buf.lightPar.length > 0 then
    { r with lightPar := some (calculateAverage buf.lightPar),
             readings := if r.readings = 0 then buf.lightPar.length
                         else r.readings }
  else r


/-- The AirTemp if-block of calculateAveragesForBuffer: when the field has
values, set its average, and set `Readings` to its length only if
`Readings` is still 0. -/
def stepAirTemp (buf : SensorAverages) (r : AverageResult) : AverageResult :=
  if buf.airTemp.length > 0 then
    { r with airTemp := some (calculateAverage buf.airTemp),
             readings := if r.readings = 0 then buf.airTemp.length
                         else r.readings }
  else r


/-- The AirRh if-block of calculateAveragesForBuffer: when the field has
values, set its average, and set `Readings` to its length only if
`Readings` is still 0. -/
def stepAirRh (buf : SensorAverages) (r : AverageResult) : AverageResult :=
  if buf.airRh.length > 0 then
    { r with airRh := some (calculateAverage buf.airRh),
             readings := if r.readings = 0 then buf.airRh.length
                         else r.readings }
  else r


/-- The LeafTemp if-block of calculateAveragesForBuffer: when the field has
values, set its average, and set `Readings` to its length only if
`Readings` is still 0. -/
def stepLeafTemp (buf : SensorAverages) (r : AverageResult) : AverageResult :=
  if buf.leafTemp.length > 0 then
    { r with leafTemp := some (calculateAverage buf.leafTemp),
             readings := if r.readings = 0 then buf.leafTemp.length
                         else r.readings }
  else r


/-- The DripWeight if-block of calculateAveragesForBuffer: when the field has
values, set its average, and set `Readings` to its length only if
`Readings` is still 0. -/
def stepDripWeight (buf : SensorAverages) (r : AverageResult) : AverageResult :=
  if buf.dripWeight.length > 0 then
    { r with dripWeight := some (calculateAverage buf.dripWeight),
             readings := if r.readings = 0 then buf.dripWeight.length
                         else r.readings }
  else r


/-- The BagRh1 if-block of calculateAveragesForBuffer: when the field has
values, set its average, and set `Readings` to its length only if
`Readings` is still 0. -/
def stepBagRh1 (buf : SensorAverages) (r : AverageResult) : AverageResult :=
  if buf.bagRh1.length > 0 then
    { r with bagRh1 := some (calculateAverage buf.bagRh1),
             readings := if r.readings = 0 then buf.bagRh1.length
                         else r.readings }
  else r


/-- The BagRh2 if-block of calculateAveragesForBuffer: when the field has
values, set its average, and set `Readings` to its length only if
`Readings` is still 0. -/
def stepBagRh2 (buf : SensorAverages) (r : AverageResult) : AverageResult :=
  if buf.bagRh2.length > 0 then
    { r with bagRh2 := some (calculateAverage buf.bagRh2),
             readings := if r.readings = 0 then buf.bagRh2.length
                         else r.readings }
  else r


/-- The BagRh3 if-block of calculateAveragesForBuffer: when the field has
values, set its average, and set `Readings` to its length only if
`Readings` is still 0. -/
def stepBagRh3 (buf : SensorAverages) (r : AverageResult) : AverageResult :=
  if buf.bagRh3.length > 0 then
    { r with bagRh3 := some (calculateAverage buf.bagRh3),
             readings := if r.readings = 0 then buf.bagRh3.length
                         else r.readings }
  else r


/-- The BagRh4 if-block of calculateAveragesForBuffer: when the field has
values, set its average, and set `Readings` to its length only if
`Readings` is still 0. -/
def stepBagRh4 (buf : SensorAverages) (r : AverageResult) : AverageResult :=
  if buf.bagRh4.length > 0 then
    { r with bagRh4 := some (calculateAverage buf.bagRh4),
             readings := if r.readings = 0 then buf.bagRh4.length
                         else r.readings }
  else r


/-- The Rain if-block of calculateAveragesForBuffer: when the field has
values, set its average, and set `Readings` to its length only if
`Readings` is still 0. -/
def stepRain (buf : SensorAverages) (r : AverageResult) : AverageResult :=
  if buf.rain.length > 0 then
    { r with rain := some (calculateAverage buf.rain),
             readings := if r.readings = 0 then buf.rain.length
                         else r.readings }
  else r


/-- calculateAveragesForBuffer: the initial record followed by the eleven
per-field blocks in source order. -/
def calculateAveragesForBuffer (now : Nat) (buf : SensorAverages) :
    AverageResult :=
  stepRain buf (stepBagRh4 buf (stepBagRh3 buf (stepBagRh2 buf (stepBagRh1
    buf (stepDripWeight buf (stepLeafTemp buf (stepAirRh buf (stepAirTemp
    buf (stepLightPar buf (stepBagTemp buf (initialResult now buf)))))))))))

/-- Appends the value of an optional field when present (`if data.X != nil
then buf.X = append(buf.X, *data.X)`). -/
def appendField (xs : List Int) (v : Option Int) : List Int :=
  match v with
  | some x => xs ++ [x]
  | none => xs

/-- One AddSensorData body applied to an existing or fresh buffer: each of
the eleven conditional appends. -/
def addToBuffer (b : SensorAverages) (d : ESP32SensorData) : SensorAverages :=
  { b with
    bagTemp := appendField b.bagTemp d.bagTemp
    lightPar := appendField b.lightPar d.lightPar
    airTemp := appendField b.airTemp d.airTemp
    airRh := appendField b.airRh d.airRh
    leafTemp := appendField b.leafTemp d.leafTemp
    dripWeight := appendField b.dripWeight d.dripWeight
    bagRh1 := appendField b.bagRh1 d.bagRh1
    bagRh2 := appendField b.bagRh2 d.bagRh2
    bagRh3 := appendField b.bagRh3 d.bagRh3
    bagRh4 := appendField b.bagRh4 d.bagRh4
    rain := appendField b.rain d.rain }

/-- The fresh buffer created on the first reading for a key: identifiers
copied from the reading, empty sequences, StartTime = time.Now(). -/
def newBuffer (now : Nat) (d : ESP32SensorData) : SensorAverages :=
  { greenhouseID := d.greenhouseID
    nodeID := d.nodeID
    bagTemp := [], lightPar := [], airTemp := [], airRh := []
    leafTemp := [], dripWeight := [], bagRh1 := [], bagRh2 := []
    bagRh3 := [], bagRh4 := [], rain := []
    startTime := now }

/-- The map key `data.GreenhouseID + "|" + data.NodeID`. -/
def bufKey (d : ESP32SensorData) : String :=
  d.greenhouseID ++ "|" ++ d.nodeID

/-- Lookup in the key→buffer map, modelled as an association list. -/
def lookupBuffer : List (String × SensorAverages) → String →
    Option SensorAverages
  | [], _ => none
  | (k, b) :: rest, key => if k = key then some b else lookupBuffer rest key

/-- Map update for AddSensorData: modify the existing entry for `key` in
place, or append a fresh buffer (then apply the appends) when absent. -/
def addToBuffers (l : List (String × SensorAverages)) (key : String)
    (now : Nat) (d : ESP32SensorData) : List (String × SensorAverages) :=
  match l with
  | [] => [(key, addToBuffer (newBuffer now d) d)]
  | (k, b) :: rest =>
    if k = key then (k, addToBuffer b d) :: rest
    else (k, b) :: addToBuffers rest key now d

/-- AveragingService: the key→buffer map (`buffers map[string]*SensorAverages`,
keyed by greenhouse_id|node_id), modelled as an association list; the mutex
is the concurrency guard and has no sequential content. -/
structure AveragingService where
  buffers : List (String × SensorAverages)
deriving DecidableEq

/-- NewAveragingService: an empty buffer map. -/
def newAveragingService : AveragingService := { buffers := [] }

/-- AddSensorData: look up or lazily create the buffer for the reading's
key, then append each present field's value. -/
def AveragingService.addSensorData (a : AveragingService) (now : Nat)
    (d : ESP32SensorData) : AveragingService :=
  { buffers := addToBuffers a.buffers (bufKey d) now d }

/-- GetAverages: computes the averages for all nodes from the current
buffers (one calculateAveragesForBuffer per buffer). -/
def AveragingService.getAverages (a : AveragingService) (now : Nat) :
    List AverageResult :=
  a.buffers.map (fun kb => calculateAveragesForBuffer now kb.2)

/-- Observable events of one flush, in emission order. `display` is the
console block printed for every buffer; `sinkWrite` is an actual
InfluxDBService.LogAverages call (with its outcome; a false outcome is
accompanied by the "Warning: Failed to log to InfluxDB" line);
`skipNoReadings` is the "Skipping InfluxDB log - no sensor readings"
warning; `noData` is the empty-period message. -/
inductive FlushEvent where
  | noData
  | display (r : AverageResult)
  | sinkWrite (r : AverageResult) (ok : Bool)
  | skipNoReadings (greenhouseID nodeID : String)
deriving DecidableEq

/-- One iteration of the flush loop of
CalculateAndDisplayAveragesWithLogging: compute and display the buffer's
result, attempt the sink write only when the service is usable
(`influxService != nil && influxService.IsConnected()`, folded into
`influxUp`) and `result.Readings > 0`, and emit the skip warning when
`result.Readings == 0`. `sinkOK` abstracts the success of each LogAverages
call. -/
def perBufferFlush (now : Nat) (influxUp : Bool)
    (sinkOK : AverageResult → Bool) (kb : String × SensorAverages) :
    List FlushEvent :=
  let r := calculateAveragesForBuffer now kb.2
  FlushEvent.display r ::
    (if influxUp ∧ r.readings > 0 then
      [FlushEvent.sinkWrite r (sinkOK r)]
    else if r.readings = 0 then
      [FlushEvent.skipNoReadings kb.2.greenhouseID kb.2.nodeID]
    else [])

/-- CalculateAndDisplayAveragesWithLogging: on an empty buffer map, print
the no-data message and return; otherwise run the per-buffer loop body for
every buffer in order and finally replace the map with a fresh empty one
(`a.buffers = make(...)`). Returns the emitted events and the new service
state. -/
def AveragingService.calculateAndDisplayAveragesWithLogging
    (a : AveragingService) (now : Nat) (influxUp : Bool)
    (sinkOK : AverageResult → Bool) : List FlushEvent × AveragingService :=
  if a.buffers = [] then ([FlushEvent.noData], a)
  else
    (a.buffers.flatMap (perBufferFlush now influxUp sinkOK),
      { buffers := [] })

/-- GetReadingCount: sums, over every buffer, the length of every one of the
eleven field sequences, each guarded by the source's `if len(...) > 0`
check. -/
def readingCountOfBuffer (b : SensorAverages) : Nat :=
  (if b.bagTemp.length > 0 then b.bagTemp.length else 0) +
  (if b.lightPar.length > 0 then b.lightPar.length else 0) +
  (if b.airTemp.length > 0 then b.airTemp.length else 0) +
  (if b.airRh.length > 0 then b.airRh.length else 0) +
  (if b.leafTemp.length > 0 then b.leafTemp.length else 0) +
  (if b.dripWeight.length > 0 then b.dripWeight.length else 0) +
  (if b.bagRh1.length > 0 then b.bagRh1.length else 0) +
  (if b.bagRh2.length > 0 then b.bagRh2.length else 0) +
  (if b.bagRh3.length > 0 then b.bagRh3.length else 0) +
  (if b.bagRh4.length > 0 then b.bagRh4.length else 0) +
  (if b.rain.length > 0 then b.rain.length else 0)

/-- GetReadingCount over the whole service (`count := 0; for each buffer,
add its per-field lengths`). It reads the buffers and does not modify them. -/
def AveragingService.getReadingCount (a : AveragingService) : Nat :=
  a.buffers.foldl (fun c kb => c + readingCountOfBuffer kb.2) 0

/-! ## Ingest dispatcher (main.go) and metrics (metrics_service.go) -/

/-- The scalar Prometheus instruments owned by MetricsService: six counters
and, as 0/1 numbers, the two connection-status gauges plus the reconnection
counter. The two API label-vector instruments and the uptime gauge are
request-path/timer instruments never touched by the ingest or flush paths
and are omitted. -/
structure MetricsService where
  mqttMessagesReceived : Nat
  mqttConnectionStatus : Nat
  mqttReconnectionCount : Nat
  sensorReadingsProcessed : Nat
  sensorAveragesCalculated : Nat
  sensorZeroValueCount : Nat
  influxDBWritesTotal : Nat
  influxDBWriteErrors : Nat
  influxDBConnectionStatus : Nat
deriving DecidableEq

/-- NewMetricsService: all instruments start at zero. -/
def newMetricsService : MetricsService :=
  { mqttMessagesReceived := 0
    mqttConnectionStatus := 0
    mqttReconnectionCount := 0
    sensorReadingsProcessed := 0
    sensorAveragesCalculated := 0
    sensorZeroValueCount := 0
    influxDBWritesTotal := 0
    influxDBWriteErrors := 0
    influxDBConnectionStatus := 0 }

/-- One entry of the buffered MQTT channel (`Topic`, `Payload`; the carried
context is irrelevant to the embedded behaviour). -/
structure MqttMessage where
  topic : String
  payload : List Nat
deriving DecidableEq

/-- The capacity of the buffered channel in main.go (`make(chan ..., 1000)`). -/
def msgChanCapacity : Nat := 1000

/-- The program state visible to the MQTT delivery callback: the buffered
channel's queued messages plus every scalar metrics instrument of the
process. -/
structure DispatcherState where
  msgChan : List MqttMessage
  metrics : MetricsService
deriving DecidableEq

/-- mqttHandler from main.go: a non-blocking select — enqueue when the
buffered channel has room, otherwise fall to `default:` which only logs the
channel-full warning naming the topic. It calls nothing else: in particular
no metrics method. Returns the new state and the emitted log lines. -/
def mqttHandler (s : DispatcherState) (topic : String) (payload : List Nat) :
    DispatcherState × List String :=
  if s.msgChan.length < msgChanCapacity then
    ({ s with msgChan := s.msgChan ++ [{ topic := topic, payload := payload }] }, [])
  else
    (s, ["WARNING: MQTT message channel full, dropping message for topic "
          ++ topic])

/-! ## Specification-side auxiliary definitions -/

/-- The eleven field sequences of a buffer, in the source's fixed order
Bag_Temp, Light_Par, Air_Temp, Air_Rh, Leaf_temp, drip_weight, Bag_Rh1,
Bag_Rh2, Bag_Rh3, Bag_Rh4, Rain. -/
def fieldLists (b : SensorAverages) : List (List Int) :=
  [b.bagTemp, b.lightPar, b.airTemp, b.airRh, b.leafTemp, b.dripWeight,
   b.bagRh1, b.bagRh2, b.bagRh3, b.bagRh4, b.rain]

/-- Modelled from the spec: the length of the first non-empty sequence in
the given order, and 0 when every sequence is empty. -/
def firstNonemptyLength : List (List Int) → Nat
  | [] => 0
  | l :: rest => if l.length = 0 then firstNonemptyLength rest else l.length

/-- Number of sensor fields present in one reading (how many values one
AddSensorData call appends in total). -/
def presentCount (d : ESP32SensorData) : Nat :=
  d.bagTemp.toList.length + d.lightPar.toList.length +
  d.airTemp.toList.length + d.airRh.toList.length +
  d.leafTemp.toList.length + d.dripWeight.toList.length +
  d.bagRh1.toList.length + d.bagRh2.toList.length +
  d.bagRh3.toList.length + d.bagRh4.toList.length + d.rain.toList.length

/-- Total number of stored field values in one buffer. -/
def bufferValues (b : SensorAverages) : Nat :=
  b.bagTemp.length + b.lightPar.length + b.airTemp.length + b.airRh.length +
  b.leafTemp.length + b.dripWeight.length + b.bagRh1.length +
  b.bagRh2.length + b.bagRh3.length + b.bagRh4.length + b.rain.length

/-- Total number of stored field values across all buffers of the service. -/
def totalValues (a : AveragingService) : Nat :=
  (a.buffers.map (fun kb => bufferValues kb.2)).sum

/-- Fold a list of readings into the service through AddSensorData. -/
def runReadings (now : Nat) (rs : List ESP32SensorData)
    (a : AveragingService) : AveragingService :=
  rs.foldl (fun s d => s.addSensorData now d) a

/-- Every sensor field of the reading is absent. -/
def allFieldsAbsent (d : ESP32SensorData) : Prop :=
  d.bagTemp = none ∧ d.lightPar = none ∧ d.airTemp = none ∧ d.airRh = none ∧
  d.leafTemp = none ∧ d.dripWeight = none ∧ d.bagRh1 = none ∧
  d.bagRh2 = none ∧ d.bagRh3 = none ∧ d.bagRh4 = none ∧ d.rain = none

instance (d : ESP32SensorData) : Decidable (allFieldsAbsent d) := by
  unfold allFieldsAbsent
  infer_instance

/-! ## Breaker lemmas -/

/-- One failed write through a Closed, connected breaker: the counter and
timestamp advance, and the state opens exactly when the counter reaches the
threshold. -/
lemma logAverages_closed_fail (i : InfluxDBService) (now : Nat)
    (hc : i.connected = true) (hs : i.state = StateClosed) :
    (i.logAverages now false).2.2 =
      if i.threshold ≤ i.failureCount + 1 then
        { i with failureCount := i.failureCount + 1,
                 lastFailureTime := now, state := StateOpen }
      else
        { i with failureCount := i.failureCount + 1,
                 lastFailureTime := now } := by
  simp only [InfluxDBService.logAverages, InfluxDBService.canExecute,
    InfluxDBService.recordFailure, hc, hs]
  simp [hs, hc, StateClosed, StateOpen, StateHalfOpen, ge_iff_le]

/-- Iterating k failed writes from a Closed, connected breaker whose counter
cannot overshoot the threshold: the counter grows by k and the state opens
exactly when the threshold is reached by a positive number of steps. -/
lemma applyOutcomes_closed_failures (now : Nat) :
    ∀ (k : Nat) (i : InfluxDBService), i.connected = true →
      i.state = StateClosed → i.failureCount + k ≤ i.threshold →
      (applyOutcomes now (List.replicate k false) i).state =
        (if i.failureCount + k = i.threshold ∧ 0 < k then StateOpen
         else StateClosed) ∧
      (applyOutcomes now (List.replicate k false) i).failureCount =
        i.failureCount + k := by
  intro k
  induction k with
  | zero =>
    intro i hc hs _
    simp [applyOutcomes, hs]
  | succ k ih =>
    intro i hc hs hle
    rw [List.replicate_succ]
    have hstep : applyOutcomes now (false :: List.replicate k false) i =
        applyOutcomes now (List.replicate k false)
          ((i.logAverages now false).2.2) := by
      simp [applyOutcomes]
    rw [hstep, logAverages_closed_fail i now hc hs]
    by_cases hth : i.threshold ≤ i.failureCount + 1
    · have hk : k = 0 := by omega
      have heq : i.failureCount + 1 = i.threshold := by omega
      subst hk
      simp [applyOutcomes, StateOpen, heq]
    · have h1 := ih { i with failureCount := i.failureCount + 1,
                             lastFailureTime := now }
        (by simpa using hc) (by simpa using hs) (by simp; omega)
      simp only [if_neg hth]
      simp only [] at h1
      refine ⟨?_, ?_⟩
      · rw [h1.1]
        by_cases h : i.failureCount + 1 + k = i.threshold
        · have hk : 0 < k := by omega
          have h2 : i.failureCount + (k + 1) = i.threshold := by omega
          simp [h, hk, h2]
        · have h2 : ¬(i.failureCount + (k + 1) = i.threshold) := by omega
          simp [h, h2]
      · rw [h1.2]
        omega

/-- Example breaker in the Open state (5 accumulated failures, last at
second 50). -/
def openBreakerExample : InfluxDBService :=
  { connected := true, state := StateOpen, failureCount := 5,
    lastFailureTime := 50, threshold := 5, timeout := 30 }

/-- Example breaker in the HalfOpen state. -/
def halfOpenBreakerExample : InfluxDBService :=
  { connected := true, state := StateHalfOpen, failureCount := 5,
    lastFailureTime := 50, threshold := 5, timeout := 30 }

/-- Claim C2: the persistence gate's circuit breaker follows the specified
state machine — it starts Closed; failure_threshold consecutive failed
writes from a fresh Closed state open it; while Open and within
open_timeout of the last failure a write returns the breaker-open error
without invoking the sink; once open_timeout has elapsed the next write
invokes the sink exactly once in HalfOpen state; a HalfOpen success closes
the breaker and resets the failure count to 0; a HalfOpen failure reopens
it and refreshes last_failure_time. -/
theorem breaker_follows_state_machine (now : Nat) (i : InfluxDBService)
    (hc : i.connected = true) :
    (newInfluxDBService.state = StateClosed ∧
      newInfluxDBService.failureCount = 0) ∧
    (i.state = StateClosed → i.failureCount = 0 → 0 < i.threshold →
      (applyOutcomes now (List.replicate i.threshold false) i).state =
        StateOpen) ∧
    (∀ sinkOK, i.state = StateOpen → now - i.lastFailureTime ≤ i.timeout →
      i.logAverages now sinkOK = (LogOutcome.breakerOpen, 0, i)) ∧
    (i.state = StateOpen → i.timeout < now - i.lastFailureTime →
      (i.canExecute now).1 = true ∧
      (i.canExecute now).2.state = StateHalfOpen ∧
      ∀ sinkOK, (i.logAverages now sinkOK).2.1 = 1) ∧
    (i.state = StateHalfOpen →
      (i.logAverages now true).2.2.state = StateClosed ∧
      (i.logAverages now true).2.2.failureCount = 0) ∧
    (i.state = StateHalfOpen →
      (i.logAverages now false).2.2.state = StateOpen ∧
      (i.logAverages now false).2.2.lastFailureTime = now) := by
  refine ⟨⟨rfl, rfl⟩, ?_, ?_, ?_, ?_, ?_⟩
  · intro hs hf ht
    have h := applyOutcomes_closed_failures now i.threshold i hc hs (by omega)
    rw [h.1, hf]
    simp [ht]
  · intro sinkOK hs htime
    have hnot : ¬(now - i.lastFailureTime > i.timeout) := by omega
    simp [InfluxDBService.logAverages, InfluxDBService.canExecute, hc, hs,
      hnot, StateClosed, StateOpen]
  · intro hs htime
    have hyes : now - i.lastFailureTime > i.timeout := by omega
    refine ⟨?_, ?_, ?_⟩
    · simp [InfluxDBService.canExecute, hs, hyes, StateClosed, StateOpen]
    · simp [InfluxDBService.canExecute, hs, hyes, StateClosed, StateOpen,
        StateHalfOpen]
    · intro sinkOK
      cases sinkOK <;>
        simp [InfluxDBService.logAverages, InfluxDBService.canExecute, hc,
          hs, hyes, StateClosed, StateOpen]
  · intro hs
    simp [InfluxDBService.logAverages, InfluxDBService.canExecute,
      InfluxDBService.recordSuccess, hc, hs, StateClosed, StateOpen,
      StateHalfOpen]
  · intro hs
    simp [InfluxDBService.logAverages, InfluxDBService.canExecute,
      InfluxDBService.recordFailure, hc, hs, StateClosed, StateOpen,
      StateHalfOpen]

/-- Concrete instantiation of breaker_follows_state_machine: a fresh breaker
(threshold 5) opens after five failed writes; an Open breaker 10 seconds
after its last failure (timeout 30) rejects without touching the sink; 50
seconds after, the probe runs in HalfOpen state; a HalfOpen success closes
the breaker and a HalfOpen failure reopens it. -/
theorem breaker_follows_state_machine_witness :
    (applyOutcomes 100 (List.replicate newInfluxDBService.threshold false)
        newInfluxDBService).state = StateOpen ∧
    openBreakerExample.logAverages 60 true =
      (LogOutcome.breakerOpen, 0, openBreakerExample) ∧
    (openBreakerExample.canExecute 100).2.state = StateHalfOpen ∧
    (halfOpenBreakerExample.logAverages 100 true).2.2.state = StateClosed ∧
    (halfOpenBreakerExample.logAverages 100 false).2.2.state = StateOpen :=
  ⟨(breaker_follows_state_machine 100 newInfluxDBService rfl).2.1 rfl rfl
      (by decide),
   (breaker_follows_state_machine 60 openBreakerExample rfl).2.2.1 true rfl
      (by decide),
   ((breaker_follows_state_machine 100 openBreakerExample rfl).2.2.2.1 rfl
      (by decide)).2.1,
   ((breaker_follows_state_machine 100 halfOpenBreakerExample
      rfl).2.2.2.2.1 rfl).1,
   ((breaker_follows_state_machine 100 halfOpenBreakerExample
      rfl).2.2.2.2.2 rfl).1⟩

/-- Claim C3 (failing input): with threshold 5, the write-outcome sequence
fail, success, fail, fail, fail, fail — a success interrupting the failures
while the breaker is Closed — still opens the breaker, because
recordSuccess resets the counter only from the HalfOpen state. The final
failureCount is 5 although only 4 consecutive failures follow the success. -/
theorem breaker_opens_despite_intervening_success :
    (applyOutcomes 100 [false, true, false, false, false, false]
        newInfluxDBService).state = StateOpen ∧
    (applyOutcomes 100 [false, true, false, false, false, false]
        newInfluxDBService).failureCount = 5 := by
  constructor <;> rfl

/-! ## Aggregator lemmas and Claims C4, C5 -/

/-- Modelled from the spec: the mean of a field's sequence, `none` when the
sequence is empty and `sum(values)/count(values)` otherwise. -/
def optAvg (l : List Int) : Option ℚ :=
  if l = [] then none else some ((l.sum : ℚ) / (l.length : ℚ))

/-- Readings-update rule shared by the ten non-initial field blocks. -/
def gReadings (l : List Int) (n : Nat) : Nat :=
  if l.length > 0 then (if n = 0 then l.length else n) else n

/-- The first field block sets `Readings` like the shared rule whenever the
incoming count is 0 (which it always is at that point). -/
lemma stepBagTemp_readings_zero (buf : SensorAverages) (r : AverageResult)
    (h : r.readings = 0) :
    (stepBagTemp buf r).readings = gReadings buf.bagTemp 0 := by
  simp [stepBagTemp, gReadings, apply_ite AverageResult.readings, h]

/-- Readings projection of the LightPar block. -/
lemma stepLightPar_readings (buf : SensorAverages) (r : AverageResult) :
    (stepLightPar buf r).readings = gReadings buf.lightPar r.readings := by
  simp [stepLightPar, gReadings, apply_ite AverageResult.readings]

/-- Readings projection of the AirTemp block. -/
lemma stepAirTemp_readings (buf : SensorAverages) (r : AverageResult) :
    (stepAirTemp buf r).readings = gReadings buf.airTemp r.readings := by
  simp [stepAirTemp, gReadings, apply_ite AverageResult.readings]

/-- Readings projection of the AirRh block. -/
lemma stepAirRh_readings (buf : SensorAverages) (r : AverageResult) :
    (stepAirRh buf r).readings = gReadings buf.airRh r.readings := by
  simp [stepAirRh, gReadings, apply_ite AverageResult.readings]

/-- Readings projection of the LeafTemp block. -/
lemma stepLeafTemp_readings (buf : SensorAverages) (r : AverageResult) :
    (stepLeafTemp buf r).readings = gReadings buf.leafTemp r.readings := by
  simp [stepLeafTemp, gReadings, apply_ite AverageResult.readings]

/-- Readings projection of the DripWeight block. -/
lemma stepDripWeight_readings (buf : SensorAverages) (r : AverageResult) :
    (stepDripWeight buf r).readings = gReadings buf.dripWeight r.readings := by
  simp [stepDripWeight, gReadings, apply_ite AverageResult.readings]

/-- Readings projection of the BagRh1 block. -/
lemma stepBagRh1_readings (buf : SensorAverages) (r : AverageResult) :
    (stepBagRh1 buf r).readings = gReadings buf.bagRh1 r.readings := by
  simp [stepBagRh1, gReadings, apply_ite AverageResult.readings]

/-- Readings projection of the BagRh2 block. -/
lemma stepBagRh2_readings (buf : SensorAverages) (r : AverageResult) :
    (stepBagRh2 buf r).readings = gReadings buf.bagRh2 r.readings := by
  simp [stepBagRh2, gReadings, apply_ite AverageResult.readings]

/-- Readings projection of the BagRh3 block. -/
lemma stepBagRh3_readings (buf : SensorAverages) (r : AverageResult) :
    (stepBagRh3 buf r).readings = gReadings buf.bagRh3 r.readings := by
  simp [stepBagRh3, gReadings, apply_ite AverageResult.readings]

/-- Readings projection of the BagRh4 block. -/
lemma stepBagRh4_readings (buf : SensorAverages) (r : AverageResult) :
    (stepBagRh4 buf r).readings = gReadings buf.bagRh4 r.readings := by
  simp [stepBagRh4, gReadings, apply_ite AverageResult.readings]

/-- Readings projection of the Rain block. -/
lemma stepRain_readings (buf : SensorAverages) (r : AverageResult) :
    (stepRain buf r).readings = gReadings buf.rain r.readings := by
  simp [stepRain, gReadings, apply_ite AverageResult.readings]

/-- Folding the shared readings rule from 0 computes the length of the
first non-empty sequence. -/
lemma foldl_gReadings (ls : List (List Int)) :
    ∀ n, List.foldl (fun n l => gReadings l n) n ls =
      if n = 0 then firstNonemptyLength ls else n := by
  induction ls with
  | nil =>
    intro n
    by_cases h : n = 0 <;> simp [firstNonemptyLength, h]
  | cons l ls ih =>
    intro n
    rw [List.foldl_cons, ih]
    by_cases hn : n = 0
    · subst hn
      by_cases hl : l.length = 0
      · simp [gReadings, hl, firstNonemptyLength]
      · simp [gReadings, hl, firstNonemptyLength, Nat.pos_of_ne_zero hl]
    · simp [gReadings, hn]

/-- Specialisation of foldl_gReadings at the initial count 0. -/
lemma foldl_gReadings_zero (ls : List (List Int)) :
    List.foldl (fun n l => gReadings l n) 0 ls = firstNonemptyLength ls := by
  rw [foldl_gReadings]
  simp

/-- Example buffer for the spec's worked example: field Light_Par received
the readings 2, 4, 6 and every other field received nothing. -/
def exampleBuffer : SensorAverages :=
  { greenhouseID := "GH1", nodeID := "Node01"
    bagTemp := [], lightPar := [2, 4, 6], airTemp := [], airRh := []
    leafTemp := [], dripWeight := [], bagRh1 := [], bagRh2 := []
    bagRh3 := [], bagRh4 := [], rain := []
    startTime := 0 }

/-- Claim C5: the result's reading_count is the length of the first
non-empty field sequence in the fixed source order (Bag_Temp, Light_Par,
Air_Temp, Air_Rh, Leaf_temp, drip_weight, Bag_Rh1, Bag_Rh2, Bag_Rh3,
Bag_Rh4, Rain) and 0 when every sequence is empty; in particular a buffer
with [2,4,6] on Light_Par and nothing elsewhere reports reading_count 3. -/
theorem readings_is_first_nonempty_length (now : Nat) (buf : SensorAverages) :
    (calculateAveragesForBuffer now buf).readings =
      firstNonemptyLength (fieldLists buf) ∧
    (calculateAveragesForBuffer 0 exampleBuffer).readings = 3 := by
  constructor
  · unfold calculateAveragesForBuffer
    rw [stepRain_readings, stepBagRh4_readings, stepBagRh3_readings,
      stepBagRh2_readings, stepBagRh1_readings, stepDripWeight_readings,
      stepLeafTemp_readings, stepAirRh_readings, stepAirTemp_readings,
      stepLightPar_readings,
      stepBagTemp_readings_zero buf (initialResult now buf) rfl]
    rw [← foldl_gReadings_zero (fieldLists buf)]
    simp [fieldLists, List.foldl]
  · rfl

/-- Claim C4: every present field's reported value is the arithmetic mean
sum(values)/count(values) of its sequence, an empty sequence yields an
absent (nil) field, and a sequence holding the single value 0 is reported
present with mean 0.0. -/
theorem field_means_present_or_absent (now : Nat) (buf : SensorAverages) :
    ((calculateAveragesForBuffer now buf).bagTemp = optAvg buf.bagTemp) ∧
    ((calculateAveragesForBuffer now buf).lightPar = optAvg buf.lightPar) ∧
    ((calculateAveragesForBuffer now buf).airTemp = optAvg buf.airTemp) ∧
    ((calculateAveragesForBuffer now buf).airRh = optAvg buf.airRh) ∧
    ((calculateAveragesForBuffer now buf).leafTemp = optAvg buf.leafTemp) ∧
    ((calculateAveragesForBuffer now buf).dripWeight = optAvg buf.dripWeight) ∧
    ((calculateAveragesForBuffer now buf).bagRh1 = optAvg buf.bagRh1) ∧
    ((calculateAveragesForBuffer now buf).bagRh2 = optAvg buf.bagRh2) ∧
    ((calculateAveragesForBuffer now buf).bagRh3 = optAvg buf.bagRh3) ∧
    ((calculateAveragesForBuffer now buf).bagRh4 = optAvg buf.bagRh4) ∧
    ((calculateAveragesForBuffer now buf).rain = optAvg buf.rain) ∧
    (buf.bagTemp = [0] →
      (calculateAveragesForBuffer now buf).bagTemp = some 0) := by
  have hBagTemp : (calculateAveragesForBuffer now buf).bagTemp = optAvg buf.bagTemp := by
    by_cases h : buf.bagTemp = [] <;>
      simp [optAvg, calculateAveragesForBuffer, stepBagTemp, stepLightPar, stepAirTemp, stepAirRh, stepLeafTemp, stepDripWeight, stepBagRh1, stepBagRh2, stepBagRh3, stepBagRh4, stepRain, initialResult,
        apply_ite AverageResult.bagTemp, h, calculateAverage,
        List.length_eq_zero]
  have hLightPar : (calculateAveragesForBuffer now buf).lightPar = optAvg buf.lightPar := by
    by_cases h : buf.lightPar = [] <;>
      simp [optAvg, calculateAveragesForBuffer, stepBagTemp, stepLightPar, stepAirTemp, stepAirRh, stepLeafTemp, stepDripWeight, stepBagRh1, stepBagRh2, stepBagRh3, stepBagRh4, stepRain, initialResult,
        apply_ite AverageResult.lightPar, h, calculateAverage,
        List.length_eq_zero]
  have hAirTemp : (calculateAveragesForBuffer now buf).airTemp = optAvg buf.airTemp := by
    by_cases h : buf.airTemp = [] <;>
      simp [optAvg, calculateAveragesForBuffer, stepBagTemp, stepLightPar, stepAirTemp, stepAirRh, stepLeafTemp, stepDripWeight, stepBagRh1, stepBagRh2, stepBagRh3, stepBagRh4, stepRain, initialResult,
        apply_ite AverageResult.airTemp, h, calculateAverage,
        List.length_eq_zero]
  have hAirRh : (calculateAveragesForBuffer now buf).airRh = optAvg buf.airRh := by
    by_cases h : buf.airRh = [] <;>
      simp [optAvg, calculateAveragesForBuffer, stepBagTemp, stepLightPar, stepAirTemp, stepAirRh, stepLeafTemp, stepDripWeight, stepBagRh1, stepBagRh2, stepBagRh3, stepBagRh4, stepRain, initialResult,
        apply_ite AverageResult.airRh, h, calculateAverage,
        List.length_eq_zero]
  have hLeafTemp : (calculateAveragesForBuffer now buf).leafTemp = optAvg buf.leafTemp := by
    by_cases h : buf.leafTemp = [] <;>
      simp [optAvg, calculateAveragesForBuffer, stepBagTemp, stepLightPar, stepAirTemp, stepAirRh, stepLeafTemp, stepDripWeight, stepBagRh1, stepBagRh2, stepBagRh3, stepBagRh4, stepRain, initialResult,
        apply_ite AverageResult.leafTemp, h, calculateAverage,
        List.length_eq_zero]
  have hDripWeight : (calculateAveragesForBuffer now buf).dripWeight = optAvg buf.dripWeight := by
    by_cases h : buf.dripWeight = [] <;>
      simp [optAvg, calculateAveragesForBuffer, stepBagTemp, stepLightPar, stepAirTemp, stepAirRh, stepLeafTemp, stepDripWeight, stepBagRh1, stepBagRh2, stepBagRh3, stepBagRh4, stepRain, initialResult,
        apply_ite AverageResult.dripWeight, h, calculateAverage,
        List.length_eq_zero]
  have hBagRh1 : (calculateAveragesForBuffer now buf).bagRh1 = optAvg buf.bagRh1 := by
    by_cases h : buf.bagRh1 = [] <;>
      simp [optAvg, calculateAveragesForBuffer, stepBagTemp, stepLightPar, stepAirTemp, stepAirRh, stepLeafTemp, stepDripWeight, stepBagRh1, stepBagRh2, stepBagRh3, stepBagRh4, stepRain, initialResult,
        apply_ite AverageResult.bagRh1, h, calculateAverage,
        List.length_eq_zero]
  have hBagRh2 : (calculateAveragesForBuffer now buf).bagRh2 = optAvg buf.bagRh2 := by
    by_cases h : buf.bagRh2 = [] <;>
      simp [optAvg, calculateAveragesForBuffer, stepBagTemp, stepLightPar, stepAirTemp, stepAirRh, stepLeafTemp, stepDripWeight, stepBagRh1, stepBagRh2, stepBagRh3, stepBagRh4, stepRain, initialResult,
        apply_ite AverageResult.bagRh2, h, calculateAverage,
        List.length_eq_zero]
  have hBagRh3 : (calculateAveragesForBuffer now buf).bagRh3 = optAvg buf.bagRh3 := by
    by_cases h : buf.bagRh3 = [] <;>
      simp [optAvg, calculateAveragesForBuffer, stepBagTemp, stepLightPar, stepAirTemp, stepAirRh, stepLeafTemp, stepDripWeight, stepBagRh1, stepBagRh2, stepBagRh3, stepBagRh4, stepRain, initialResult,
        apply_ite AverageResult.bagRh3, h, calculateAverage,
        List.length_eq_zero]
  have hBagRh4 : (calculateAveragesForBuffer now buf).bagRh4 = optAvg buf.bagRh4 := by
    by_cases h : buf.bagRh4 = [] <;>
      simp [optAvg, calculateAveragesForBuffer, stepBagTemp, stepLightPar, stepAirTemp, stepAirRh, stepLeafTemp, stepDripWeight, stepBagRh1, stepBagRh2, stepBagRh3, stepBagRh4, stepRain, initialResult,
        apply_ite AverageResult.bagRh4, h, calculateAverage,
        List.length_eq_zero]
  have hRain : (calculateAveragesForBuffer now buf).rain = optAvg buf.rain := by
    by_cases h : buf.rain = [] <;>
      simp [optAvg, calculateAveragesForBuffer, stepBagTemp, stepLightPar, stepAirTemp, stepAirRh, stepLeafTemp, stepDripWeight, stepBagRh1, stepBagRh2, stepBagRh3, stepBagRh4, stepRain, initialResult,
        apply_ite AverageResult.rain, h, calculateAverage,
        List.length_eq_zero]
  refine ⟨hBagTemp, hLightPar, hAirTemp, hAirRh, hLeafTemp, hDripWeight,
    hBagRh1, hBagRh2, hBagRh3, hBagRh4, hRain, ?_⟩
  intro h
  rw [hBagTemp, h]
  simp [optAvg]

/-- Buffer whose Bag_Temp sequence holds the single value 0 and whose other
sequences are empty. -/
def zeroValueBuffer : SensorAverages :=
  { greenhouseID := "GH1", nodeID := "Node01"
    bagTemp := [0], lightPar := [], airTemp := [], airRh := []
    leafTemp := [], dripWeight := [], bagRh1 := [], bagRh2 := []
    bagRh3 := [], bagRh4 := [], rain := []
    startTime := 0 }

/-- Concrete instantiation of field_means_present_or_absent: a buffer whose
Bag_Temp sequence is exactly [0] reports Bag_Temp as present with mean 0. -/
theorem field_means_present_or_absent_witness :
    (calculateAveragesForBuffer 0 zeroValueBuffer).bagTemp = some 0 :=
  (field_means_present_or_absent 0
    zeroValueBuffer).2.2.2.2.2.2.2.2.2.2.2 rfl

/-! ## Accumulator lemmas and Claim C6 -/

/-- Appending an optional value grows the list by the number of values
present (0 or 1). -/
lemma appendField_length (xs : List Int) (v : Option Int) :
    (appendField xs v).length = xs.length + v.toList.length := by
  cases v <;> simp [appendField]

/-- One AddSensorData body adds exactly the reading's present values to the
buffer. -/
lemma bufferValues_addToBuffer (b : SensorAverages) (d : ESP32SensorData) :
    bufferValues (addToBuffer b d) = bufferValues b + presentCount d := by
  simp only [bufferValues, addToBuffer, presentCount, appendField_length]
  ring

/-- A fresh buffer holds no values. -/
lemma bufferValues_newBuffer (now : Nat) (d : ESP32SensorData) :
    bufferValues (newBuffer now d) = 0 := by
  simp [bufferValues, newBuffer]

/-- Value conservation of the map update underlying AddSensorData. -/
lemma sum_addToBuffers (key : String) (now : Nat) (d : ESP32SensorData) :
    ∀ l : List (String × SensorAverages),
      ((addToBuffers l key now d).map (fun kb => bufferValues kb.2)).sum =
        ((l.map (fun kb => bufferValues kb.2)).sum + presentCount d) := by
  intro l
  induction l with
  | nil =>
    simp [addToBuffers, bufferValues_addToBuffer, bufferValues_newBuffer]
  | cons kb rest ih =>
    by_cases h : kb.1 = key
    · simp only [addToBuffers, if_pos h, List.map_cons, List.sum_cons,
        bufferValues_addToBuffer]
      ring
    · simp only [addToBuffers, if_neg h, List.map_cons, List.sum_cons, ih]
      ring

/-- AddSensorData adds exactly the reading's present values to the service. -/
lemma totalValues_addSensorData (a : AveragingService) (now : Nat)
    (d : ESP32SensorData) :
    totalValues (a.addSensorData now d) = totalValues a + presentCount d := by
  simp [totalValues, AveragingService.addSensorData, sum_addToBuffers]

/-- Folding a list of readings adds exactly their present values. -/
lemma totalValues_runReadings (now : Nat) :
    ∀ (rs : List ESP32SensorData) (a : AveragingService),
      totalValues (runReadings now rs a) =
        totalValues a + (rs.map presentCount).sum := by
  intro rs
  induction rs with
  | nil => intro a; simp [runReadings]
  | cons d rs ih =>
    intro a
    have : runReadings now (d :: rs) a =
        runReadings now rs (a.addSensorData now d) := by
      simp [runReadings]
    rw [this, ih, totalValues_addSensorData]
    simp [List.map_cons, List.sum_cons]
    ring

/-- The flush always leaves the service with a fresh empty buffer map. -/
lemma flush_resets_state (a : AveragingService) (now : Nat) (up : Bool)
    (so : AverageResult → Bool) :
    (a.calculateAndDisplayAveragesWithLogging now up so).2 =
      newAveragingService := by
  obtain ⟨bufs⟩ := a
  unfold AveragingService.calculateAndDisplayAveragesWithLogging
  by_cases h : bufs = [] <;> simp_all [newAveragingService]

/-- A fresh service stores no values. -/
lemma totalValues_newAveragingService : totalValues newAveragingService = 0 :=
  rfl

/-- Claim C6: for any sequence of AddSensorData calls interleaved with one
flush, the values of every reading added before the flush sit in the
buffers the flush drains (which feed the pre-drain results), the flush
installs a fresh empty map, and every reading added after the flush lands
in newly created buffers holding exactly the post-flush readings — none
lost, none duplicated. -/
theorem flush_partitions_readings (now : Nat)
    (pre post : List ESP32SensorData) (influxUp : Bool)
    (sinkOK : AverageResult → Bool) :
    ((runReadings now pre
        newAveragingService).calculateAndDisplayAveragesWithLogging now
        influxUp sinkOK).2.buffers = [] ∧
    totalValues (runReadings now pre newAveragingService) =
      (pre.map presentCount).sum ∧
    runReadings now post
        ((runReadings now pre
          newAveragingService).calculateAndDisplayAveragesWithLogging now
          influxUp sinkOK).2 =
      runReadings now post newAveragingService ∧
    totalValues (runReadings now post newAveragingService) =
      (post.map presentCount).sum := by
  refine ⟨?_, ?_, ?_, ?_⟩
  · rw [flush_resets_state]
    rfl
  · rw [totalValues_runReadings, totalValues_newAveragingService]
    omega
  · rw [flush_resets_state]
  · rw [totalValues_runReadings, totalValues_newAveragingService]
    omega

/-! ## Claim C7 -/

/-- Each per-buffer summand of GetReadingCount is the buffer's total value
count: the `if len(...) > 0` guards are redundant. -/
lemma readingCountOfBuffer_eq_bufferValues (b : SensorAverages) :
    readingCountOfBuffer b = bufferValues b := by
  have hif : ∀ l : List Int,
      (if l.length > 0 then l.length else 0) = l.length := by
    intro l
    by_cases h : l.length > 0
    · simp [h]
    · simp [h]
      omega
  simp only [readingCountOfBuffer, bufferValues, hif]

/-- Folding the per-buffer counts with an accumulator equals the mapped sum. -/
lemma foldl_add_count {α : Type} (f : α → Nat) :
    ∀ (l : List α) (c : Nat),
      l.foldl (fun c x => c + f x) c = c + (l.map f).sum := by
  intro l
  induction l with
  | nil => intro c; simp
  | cons x l ih =>
    intro c
    simp only [List.foldl_cons, List.map_cons, List.sum_cons, ih]
    ring

/-- Claim C7 (amended): GetReadingCount returns the total number of stored
field values across all current buffers — a reading carrying several fields
is counted once per field, not once per reading — and, being a pure
function of the buffers, it drains and modifies nothing. -/
theorem getReadingCount_sums_field_lengths (a : AveragingService) :
    a.getReadingCount = totalValues a := by
  simp only [AveragingService.getReadingCount, totalValues,
    readingCountOfBuffer_eq_bufferValues]
  have h := foldl_add_count (fun kb : String × SensorAverages =>
    bufferValues kb.2) a.buffers 0
  simp only [readingCountOfBuffer_eq_bufferValues] at h ⊢
  rw [h]
  omega

/-- A reading that reports two sensor fields (Bag_Temp and Light_Par). -/
def twoFieldReading : ESP32SensorData :=
  { greenhouseID := "GH1", nodeID := "Node01"
    bagTemp := some 1, lightPar := some 2
    airTemp := none, airRh := none, leafTemp := none, dripWeight := none
    bagRh1 := none, bagRh2 := none, bagRh3 := none, bagRh4 := none
    rain := none }

/-- Claim C7 (counterexample): after folding exactly one reading that
carries two fields into a fresh service, GetReadingCount returns 2, while
the per-key reading counts of the buffers (what the claim says is summed)
total 1 — one reading was folded in, and its buffer's reading_count is 1. -/
theorem getReadingCount_counts_values_not_readings :
    (newAveragingService.addSensorData 0 twoFieldReading).getReadingCount
      = 2 ∧
    ((newAveragingService.addSensorData 0 twoFieldReading).getAverages
        0).map AverageResult.readings = [1] ∧
    (2 : Nat) ≠ 1 := by
  refine ⟨rfl, ?_, by omega⟩
  rfl

/-! ## Claim C1 -/

/-- A reading reporting only Bag_Temp = 5. -/
def singleFieldReading : ESP32SensorData :=
  { greenhouseID := "GH1", nodeID := "Node01"
    bagTemp := some 5
    lightPar := none, airTemp := none, airRh := none, leafTemp := none
    dripWeight := none, bagRh1 := none, bagRh2 := none, bagRh3 := none
    bagRh4 := none, rain := none }

/-- The service state right after a flush of one buffered reading (reading
folded at second 0, tick at second 60, sink connected and succeeding). -/
def flushedService : AveragingService :=
  ((newAveragingService.addSensorData 0
      singleFieldReading).calculateAndDisplayAveragesWithLogging 60 true
    (fun _ => true)).2

/-- Claim C1 (counterexample): immediately after a flush that computed a
non-empty result, GetAverages returns the empty list — the flush's results
are not retained for reads — and folding one more reading changes what
GetAverages returns, so readings accumulated since the flush do affect the
values returned before the next tick. -/
theorem getAverages_not_last_tick_snapshot :
    flushedService.getAverages 60 = [] ∧
    (flushedService.addSensorData 60 singleFieldReading).getAverages 60 ≠
      flushedService.getAverages 60 := by
  constructor
  · rfl
  · decide

/-- Claim C1 (amended): GetAverages computes its results live from the
current buffers at call time: it maps calculateAveragesForBuffer over the
in-progress window buffers, returns the empty list immediately after a
flush (no last-tick snapshot is retained), and a reading folded after the
flush is reflected in the very next read. -/
theorem getAverages_reflects_live_window (now : Nat) (a : AveragingService)
    (up : Bool) (so : AverageResult → Bool) (d : ESP32SensorData) :
    a.getAverages now =
      a.buffers.map (fun kb => calculateAveragesForBuffer now kb.2) ∧
    (a.calculateAndDisplayAveragesWithLogging now up
        so).2.getAverages now = [] ∧
    ((a.calculateAndDisplayAveragesWithLogging now up
        so).2.addSensorData now d).getAverages now =
      [calculateAveragesForBuffer now (addToBuffer (newBuffer now d) d)] := by
  refine ⟨rfl, ?_, ?_⟩
  · rw [flush_resets_state]
    rfl
  · rw [flush_resets_state]
    simp [AveragingService.getAverages, AveragingService.addSensorData,
      addToBuffers, newAveragingService]

/-! ## Claim C8 -/

/-- A channel filled to its capacity of 1000 messages. -/
def fullChannel : List MqttMessage :=
  List.replicate 1000 { topic := "esp32/data", payload := [] }

/-- The full channel indeed holds 1000 messages. -/
lemma fullChannel_length : fullChannel.length = 1000 := by
  unfold fullChannel
  exact List.length_replicate 1000 _

/-- Claim C8 (counterexample): enqueueing onto the full channel drops the
new message and emits the warning, but leaves every metrics instrument of
the process exactly unchanged — no drop counter is incremented by 1 (none
exists; the overflow branch only logs). -/
theorem dispatcher_overflow_increments_no_counter :
    (mqttHandler { msgChan := fullChannel, metrics := newMetricsService }
        "esp32/data" []).1.metrics = newMetricsService ∧
    (mqttHandler { msgChan := fullChannel, metrics := newMetricsService }
        "esp32/data" []).1.msgChan = fullChannel ∧
    (mqttHandler { msgChan := fullChannel, metrics := newMetricsService }
        "esp32/data" []).2 =
      ["WARNING: MQTT message channel full, dropping message for topic esp32/data"] := by
  have hlen : ¬(fullChannel.length < msgChanCapacity) := by
    rw [fullChannel_length]
    decide
  unfold mqttHandler
  rw [if_neg hlen]
  exact ⟨rfl, rfl, rfl⟩

/-- Claim C8 (amended): when the bounded queue (capacity 1000) is full,
enqueueing one more message drops exactly that newest message without
blocking and emits a warning naming the losing topic, while all previously
enqueued messages remain intact; no drop counter is incremented — the drop
is observable only through the warning log line. -/
theorem dispatcher_overflow_drops_newest (s : DispatcherState)
    (topic : String) (payload : List Nat)
    (h : msgChanCapacity ≤ s.msgChan.length) :
    (mqttHandler s topic payload).1.msgChan = s.msgChan ∧
    (mqttHandler s topic payload).1.metrics = s.metrics ∧
    (mqttHandler s topic payload).2 =
      ["WARNING: MQTT message channel full, dropping message for topic "
        ++ topic] ∧
    ∀ m ∈ s.msgChan, m ∈ (mqttHandler s topic payload).1.msgChan := by
  have hlen : ¬(s.msgChan.length < msgChanCapacity) := by omega
  unfold mqttHandler
  rw [if_neg hlen]
  exact ⟨rfl, rfl, rfl, fun m hm => hm⟩

/-- Concrete instantiation of dispatcher_overflow_drops_newest at the full
channel: the drop happens, the queue and the metrics are unchanged, and the
warning names the topic. -/
theorem dispatcher_overflow_drops_newest_witness :
    (mqttHandler { msgChan := fullChannel, metrics := newMetricsService }
        "greenhouse/GH1" [7]).1.msgChan = fullChannel ∧
    (mqttHandler { msgChan := fullChannel, metrics := newMetricsService }
        "greenhouse/GH1" [7]).1.metrics = newMetricsService ∧
    (mqttHandler { msgChan := fullChannel, metrics := newMetricsService }
        "greenhouse/GH1" [7]).2 =
      ["WARNING: MQTT message channel full, dropping message for topic "
        ++ "greenhouse/GH1"] := by
  have h := dispatcher_overflow_drops_newest
    { msgChan := fullChannel, metrics := newMetricsService }
    "greenhouse/GH1" [7] (by rw [fullChannel_length]; decide)
  exact ⟨h.1, h.2.1, h.2.2.1⟩

/-! ## Claim C9 -/

/-- Claim C9: during a flush, a sink write is attempted only for results
with reading_count > 0; a key whose result has reading_count = 0 instead
gets the skip warning; and every buffer is processed (its result is
displayed), so the no-data condition does not stop the flush. -/
theorem sink_writes_only_for_positive_readings (now : Nat)
    (a : AveragingService) (up : Bool) (so : AverageResult → Bool) :
    (∀ r ok,
      FlushEvent.sinkWrite r ok ∈
          (a.calculateAndDisplayAveragesWithLogging now up so).1 →
        0 < r.readings) ∧
    (∀ kb ∈ a.buffers,
      (calculateAveragesForBuffer now kb.2).readings = 0 →
        FlushEvent.skipNoReadings kb.2.greenhouseID kb.2.nodeID ∈
          (a.calculateAndDisplayAveragesWithLogging now up so).1) ∧
    (∀ kb ∈ a.buffers,
      FlushEvent.display (calculateAveragesForBuffer now kb.2) ∈
          (a.calculateAndDisplayAveragesWithLogging now up so).1) := by
  by_cases hb : a.buffers = []
  · refine ⟨?_, ?_, ?_⟩
    · intro r ok h
      simp [AveragingService.calculateAndDisplayAveragesWithLogging, hb] at h
    · intro kb hkb
      rw [hb] at hkb
      simp at hkb
    · intro kb hkb
      rw [hb] at hkb
      simp at hkb
  · have hev : (a.calculateAndDisplayAveragesWithLogging now up so).1 =
        a.buffers.flatMap (perBufferFlush now up so) := by
      simp [AveragingService.calculateAndDisplayAveragesWithLogging, hb]
    rw [hev]
    refine ⟨?_, ?_, ?_⟩
    · intro r ok h
      rw [List.mem_flatMap] at h
      obtain ⟨kb, _, hmem⟩ := h
      unfold perBufferFlush at hmem
      simp only [List.mem_cons] at hmem
      rcases hmem with heq | hmem
      · exact absurd heq (by simp)
      · split_ifs at hmem with h1 h2
        · simp only [List.mem_singleton] at hmem
          obtain ⟨hr, _⟩ := FlushEvent.sinkWrite.inj hmem
          rw [hr]
          exact h1.2
        · simp at hmem
        · simp at hmem
    · intro kb hkb h0
      rw [List.mem_flatMap]
      refine ⟨kb, hkb, ?_⟩
      unfold perBufferFlush
      simp [h0]
    · intro kb hkb
      rw [List.mem_flatMap]
      refine ⟨kb, hkb, ?_⟩
      unfold perBufferFlush
      simp

/-- Buffer for a node that received no readings' values (all sequences
empty). -/
def emptyNodeBuffer : SensorAverages :=
  { greenhouseID := "GH1", nodeID := "Node02"
    bagTemp := [], lightPar := [], airTemp := [], airRh := []
    leafTemp := [], dripWeight := [], bagRh1 := [], bagRh2 := []
    bagRh3 := [], bagRh4 := [], rain := []
    startTime := 0 }

/-- A service holding one buffer with data and one without. -/
def svcTwoBuffers : AveragingService :=
  { buffers := [("GH1|Node01", zeroValueBuffer),
                ("GH1|Node02", emptyNodeBuffer)] }

/-- Concrete instantiation of sink_writes_only_for_positive_readings on a
flush of one data-bearing buffer and one empty buffer: the attempted write
has positive reading_count, and the empty buffer gets the skip warning and
is still displayed. -/
theorem sink_writes_only_for_positive_readings_witness :
    0 < (calculateAveragesForBuffer 0 zeroValueBuffer).readings ∧
    FlushEvent.skipNoReadings emptyNodeBuffer.greenhouseID
        emptyNodeBuffer.nodeID ∈
      (svcTwoBuffers.calculateAndDisplayAveragesWithLogging 0 true
        (fun _ => true)).1 ∧
    FlushEvent.display (calculateAveragesForBuffer 0 emptyNodeBuffer) ∈
      (svcTwoBuffers.calculateAndDisplayAveragesWithLogging 0 true
        (fun _ => true)).1 :=
  ⟨(sink_writes_only_for_positive_readings 0 svcTwoBuffers true
      (fun _ => true)).1 (calculateAveragesForBuffer 0 zeroValueBuffer)
      true (by
        have h1 : (calculateAveragesForBuffer 0 zeroValueBuffer).readings
            = 1 := rfl
        simp [svcTwoBuffers,
          AveragingService.calculateAndDisplayAveragesWithLogging,
          perBufferFlush, h1]),
   (sink_writes_only_for_positive_readings 0 svcTwoBuffers true
      (fun _ => true)).2.1 ("GH1|Node02", emptyNodeBuffer) (by decide) rfl,
   (sink_writes_only_for_positive_readings 0 svcTwoBuffers true
      (fun _ => true)).2.2 ("GH1|Node02", emptyNodeBuffer) (by decide)⟩

/-! ## Claim C10 -/

/-- AddSensorData's map update on a key with no existing buffer installs
the freshly created buffer (with the appends applied to it). -/
lemma lookup_addToBuffers_new (key : String) (now : Nat)
    (d : ESP32SensorData) :
    ∀ l : List (String × SensorAverages), lookupBuffer l key = none →
      lookupBuffer (addToBuffers l key now d) key =
        some (addToBuffer (newBuffer now d) d) := by
  intro l
  induction l with
  | nil =>
    intro _
    simp [addToBuffers, lookupBuffer]
  | cons kb rest ih =>
    intro hnone
    by_cases h : kb.1 = key
    · rw [lookupBuffer] at hnone
      simp [h] at hnone
    · rw [lookupBuffer] at hnone
      simp only [if_neg h] at hnone
      simp only [addToBuffers, if_neg h, lookupBuffer]
      exact ih hnone

/-- Appending a reading with no present field leaves the buffer unchanged. -/
lemma addToBuffer_absent (b : SensorAverages) (d : ESP32SensorData)
    (h : allFieldsAbsent d) : addToBuffer b d = b := by
  obtain ⟨h1, h2, h3, h4, h5, h6, h7, h8, h9, h10, h11⟩ := h
  simp [addToBuffer, appendField, h1, h2, h3, h4, h5, h6, h7, h8, h9, h10,
    h11]

/-- Claim C10: AddSensorData with a reading whose sensor fields are all
absent still creates the key's Window Buffer (start timestamp = now, every
sequence empty) when none exists, and the flush computation on that buffer
yields reading_count 0 with every sensor field absent (the result record
equals the all-absent initial record). -/
theorem absent_reading_creates_empty_buffer (a : AveragingService)
    (now now2 : Nat) (d : ESP32SensorData) (habs : allFieldsAbsent d)
    (hmiss : lookupBuffer a.buffers (bufKey d) = none) :
    lookupBuffer (a.addSensorData now d).buffers (bufKey d) =
      some (newBuffer now d) ∧
    (newBuffer now d).startTime = now ∧
    (calculateAveragesForBuffer now2 (newBuffer now d)).readings = 0 ∧
    calculateAveragesForBuffer now2 (newBuffer now d) =
      initialResult now2 (newBuffer now d) := by
  refine ⟨?_, rfl, rfl, rfl⟩
  show lookupBuffer (addToBuffers a.buffers (bufKey d) now d) (bufKey d) =
    some (newBuffer now d)
  rw [lookup_addToBuffers_new (bufKey d) now d a.buffers hmiss,
    addToBuffer_absent (newBuffer now d) d habs]

/-- A reading from Node05 carrying no sensor values at all. -/
def absentReading : ESP32SensorData :=
  { greenhouseID := "GH1", nodeID := "Node05"
    bagTemp := none, lightPar := none, airTemp := none, airRh := none
    leafTemp := none, dripWeight := none, bagRh1 := none, bagRh2 := none
    bagRh3 := none, bagRh4 := none, rain := none }

/-- Concrete instantiation of absent_reading_creates_empty_buffer: folding
the value-free reading into a fresh service creates its buffer with start
time 7, and the flush computation reports 0 readings. -/
theorem absent_reading_creates_empty_buffer_witness :
    lookupBuffer ((newAveragingService.addSensorData 7
        absentReading)).buffers (bufKey absentReading) =
      some (newBuffer 7 absentReading) ∧
    (calculateAveragesForBuffer 30 (newBuffer 7 absentReading)).readings
      = 0 :=
  have h := absent_reading_creates_empty_buffer newAveragingService 7 30
    absentReading (by decide) rfl
  ⟨h.1, h.2.2.1⟩
